import Mathlib

/-!
Shallow embedding of the UI hierarchy dump parsing and filtering subsystem
(`src/node.py` and the `getDump` flow of `src/tools.py`).

Python strings are modelled as Lean `String`; `None` as `Option.none`;
exceptions as `Except`; the external XML library's parsed document as an
inductive tree `XElem`, with the library's string-level parser and the file
system passed in as explicit function parameters.
-/

namespace ManualAutomator

/-- Characters stripped by Python `str.strip()` (ASCII fragment). -/
def pySpace (c : Char) : Bool :=
  c = ' ' || c = '\t' || c = '\n' || c = '\r' || c = '\x0b' || c = '\x0c'

/-- Python `str.strip()` on a character list. -/
def pyStripList (l : List Char) : List Char :=
  ((l.dropWhile pySpace).reverse.dropWhile pySpace).reverse

/-- Python `str.strip()`. -/
def pyStrip (s : String) : String :=
  ⟨pyStripList s.toList⟩

/-- One character of Python `str.lower()` (ASCII fragment). -/
def lowerChar (c : Char) : Char :=
  if 'A' ≤ c && c ≤ 'Z' then Char.ofNat (c.toNat + 32) else c

/-- Python `str.lower()` (ASCII fragment). -/
def asciiLower (s : String) : String :=
  ⟨s.toList.map lowerChar⟩

/-- Numeric value of a digit run. -/
def natOfDigits (ds : List Char) : Nat :=
  ds.foldl (fun a c => a * 10 + (c.toNat - 48)) 0

/-- Digit run of Python `int()`: digits optionally separated by single
underscores, consuming the whole input. -/
def pyDigitsGo : Nat → List Char → Option Nat
  | acc, [] => some acc
  | acc, c :: cs =>
    if c.isDigit then pyDigitsGo (acc * 10 + (c.toNat - 48)) cs
    else if c = '_' then
      match cs with
      | d :: cs2 => if d.isDigit then pyDigitsGo (acc * 10 + (d.toNat - 48)) cs2 else none
      | [] => none
    else none

/-- Nonempty digit run starting with a digit (Python `int()` body). -/
def pyDigits : List Char → Option Nat
  | [] => none
  | c :: cs => if c.isDigit then pyDigitsGo (c.toNat - 48) cs else none

/-- Python `int(s)` for a string argument: surrounding whitespace, optional
sign, decimal digits; `none` models the `ValueError`. -/
def pythonParseInt (s : String) : Option Int :=
  match pyStripList s.toList with
  | '+' :: rest => (pyDigits rest).map Int.ofNat
  | '-' :: rest => (pyDigits rest).map (fun n => -(n : Int))
  | rest => (pyDigits rest).map Int.ofNat

/-- `as_int` from `Node.from_xml`: `int(v)` with default `0` on `TypeError`
(absent value) or `ValueError` (malformed text). -/
def as_int (v : Option String) : Int :=
  match v with
  | none => 0
  | some s => (pythonParseInt s).getD 0

/-- `as_bool` from `Node.from_xml`: `None` is false, otherwise the stripped,
lowercased value is compared with `"true"`, `"1"`, `"yes"`. -/
def as_bool (v : Option String) : Bool :=
  match v with
  | none => false
  | some s =>
    let t := asciiLower (pyStrip s)
    t = "true" || t = "1" || t = "yes"

/-- Consume one expected character. -/
def expectChar (c : Char) (l : List Char) : Option (List Char) :=
  match l with
  | x :: xs => if x = c then some xs else none
  | [] => none

/-- Consume a maximal nonempty digit run (the regex `\d+`). -/
def readNat (l : List Char) : Option (Nat × List Char) :=
  let ds := l.takeWhile Char.isDigit
  if ds.isEmpty then none else some (natOfDigits ds, l.dropWhile Char.isDigit)

/-- `re.match` of the pattern `\[(\d+),(\d+)\]\[(\d+),(\d+)\]`: anchored at the
start only, so any trailing characters after the pattern are ignored. -/
def boundsPrefix (l0 : List Char) : Option ((Int × Int) × (Int × Int)) := do
  let l1 ← expectChar '[' l0
  let (x1, l2) ← readNat l1
  let l3 ← expectChar ',' l2
  let (y1, l4) ← readNat l3
  let l5 ← expectChar ']' l4
  let l6 ← expectChar '[' l5
  let (x2, l7) ← readNat l6
  let l8 ← expectChar ',' l7
  let (y2, l9) ← readNat l8
  let _ ← expectChar ']' l9
  pure (((x1 : Int), (y1 : Int)), ((x2 : Int), (y2 : Int)))

/-- `parse_bounds` from `Node.from_xml`: falsy (absent or empty) values and
non-matching values give `((0,0),(0,0))`; otherwise the regex match on the
stripped string gives the four coordinates. -/
def parse_bounds (v : Option String) : (Int × Int) × (Int × Int) :=
  match v with
  | none => ((0, 0), (0, 0))
  | some s =>
    if s = "" then ((0, 0), (0, 0))
    else (boundsPrefix (pyStripList s.toList)).getD ((0, 0), (0, 0))

/-- A parsed XML element as produced by the external XML library
(`xml.etree.ElementTree`): tag, attribute map, children in document order. -/
inductive XElem : Type where
  | mk : String → List (String × String) → List XElem → XElem

/-- Tag of an element. -/
def XElem.tag : XElem → String
  | .mk t _ _ => t

/-- Attribute map of an element (`el.attrib`). -/
def XElem.attrib : XElem → List (String × String)
  | .mk _ a _ => a

/-- Children of an element in document order. -/
def XElem.children : XElem → List XElem
  | .mk _ _ c => c

/-- `a.get(k)` on an attribute map. -/
def attrGet (a : List (String × String)) (k : String) : Option String :=
  match a with
  | [] => none
  | (k2, v) :: rest => if k2 = k then some v else attrGet rest k

/-- `a.get(k, "") or ""`: string attribute with empty-string default. -/
def attrGetStr (a : List (String × String)) (k : String) : String :=
  (attrGet a k).getD ""

mutual

/-- `root.iter(t)` of the XML library: the element itself when its tag is `t`,
then its descendants with tag `t`, in depth-first document order. -/
def iterTag (e : XElem) (t : String) : List XElem :=
  match e with
  | .mk tg a c => (if tg = t then [XElem.mk tg a c] else []) ++ iterTagList c t

/-- `iterTag` over a child list. -/
def iterTagList (l : List XElem) (t : String) : List XElem :=
  match l with
  | [] => []
  | x :: xs => iterTag x t ++ iterTagList xs t

end

mutual

/-- All elements of a tree in depth-first document order. -/
def dfsElems (e : XElem) : List XElem :=
  match e with
  | .mk tg a c => XElem.mk tg a c :: dfsList c

/-- `dfsElems` over a child list. -/
def dfsList (l : List XElem) : List XElem :=
  match l with
  | [] => []
  | x :: xs => dfsElems x ++ dfsList xs

end

/-- One UI element from the hierarchy dump (`Node` of `src/node.py`). -/
structure Node where
  index : Int
  text : String
  resource_id : String
  view_class_name : String
  package : String
  content_desc : String
  checkable : Bool
  checked : Bool
  clickable : Bool
  enabled : Bool
  focusable : Bool
  focused : Bool
  scrollable : Bool
  long_clickable : Bool
  password : Bool
  selected : Bool
  visible_to_user : Bool
  bounds : (Int × Int) × (Int × Int)
  drawing_order : Int
  hint : String
  display_id : Int
deriving DecidableEq, Repr

/-- `Node.from_xml`: build a `Node` from one element's attribute map, with the
defaulting coercions `as_int`, `as_bool`, `parse_bounds`. -/
def Node.from_xml (el : XElem) : Node :=
  let a := el.attrib
  { index := as_int (attrGet a "index")
    text := attrGetStr a "text"
    resource_id := attrGetStr a "resource-id"
    view_class_name := attrGetStr a "class"
    package := attrGetStr a "package"
    content_desc := attrGetStr a "content-desc"
    checkable := as_bool (attrGet a "checkable")
    checked := as_bool (attrGet a "checked")
    clickable := as_bool (attrGet a "clickable")
    enabled := as_bool (attrGet a "enabled")
    focusable := as_bool (attrGet a "focusable")
    focused := as_bool (attrGet a "focused")
    scrollable := as_bool (attrGet a "scrollable")
    long_clickable := as_bool (attrGet a "long-clickable")
    password := as_bool (attrGet a "password")
    selected := as_bool (attrGet a "selected")
    visible_to_user := as_bool (attrGet a "visible-to-user")
    bounds := parse_bounds (attrGet a "bounds")
    drawing_order := as_int (attrGet a "drawing-order")
    hint := attrGetStr a "hint"
    display_id := as_int (attrGet a "display-id") }

/-- `NodesFilter` of `src/node.py`: six independently nullable string
predicates. -/
structure NodesFilter where
  view_class_name : Option String
  package_name : Option String
  resource_id : Option String
  content_description : Option String
  text : Option String
  hint : Option String
deriving DecidableEq, Repr

/-- Containment of one character list in another as a contiguous run. -/
def infixOfList (r : List Char) : List Char → Bool
  | [] => r.isEmpty
  | c :: xs => r.isPrefixOf (c :: xs) || infixOfList r xs

/-- Python substring containment `r in s`. -/
def strContains (r s : String) : Bool :=
  infixOfList r.toList s.toList

/-- One conditional append of `filter_nodes`: a truthy (non-null, nonempty)
field contributes its predicate, a falsy one contributes nothing. -/
def predOf (o : Option String) (p : String → Node → Bool) : List (Node → Bool) :=
  match o with
  | some v => if v = "" then [] else [p v]
  | none => []

/-- The predicate list `preds` built by `filter_nodes`, in source order. -/
def activePreds (f : NodesFilter) : List (Node → Bool) :=
  predOf f.view_class_name (fun r n => strContains r n.view_class_name) ++
  predOf f.package_name (fun r n => strContains r n.package) ++
  predOf f.resource_id (fun r n => n.resource_id == r) ++
  predOf f.content_description (fun r n => strContains r n.content_desc) ++
  predOf f.text (fun r n => strContains r n.text) ++
  predOf f.hint (fun r n => strContains r n.hint)

/-- `filter_nodes`: no predicate gives the input back, one predicate filters by
it, two or more filter by their conjunction. -/
def filter_nodes (nodes : List Node) (f : NodesFilter) : List Node :=
  match activePreds f with
  | [] => nodes
  | [p] => nodes.filter p
  | ps => nodes.filter (fun n => ps.all (fun q => q n))

/-- Failures of the parse entry points: `FileNotFoundError` with the path, or
the XML library's parse error for malformed text. -/
inductive DumpError : Type where
  | notFound : String → DumpError
  | malformed : DumpError
deriving DecidableEq, Repr

/-- `parse_nodes_from_string`, with the XML library's string parser passed in
as `parseXml` (`none` models its parse exception). -/
def parse_nodes_from_string (parseXml : String → Option XElem) (xml_text : String) :
    Except DumpError (List Node) :=
  match parseXml xml_text with
  | none => .error .malformed
  | some root => .ok ((iterTag root "node").map Node.from_xml)

/-- `parse_nodes_from_file`, with the file system passed in as `fs` (path to
optional content): existence is checked before any parse attempt. -/
def parse_nodes_from_file (parseXml : String → Option XElem) (fs : String → Option String)
    (path : String) : Except DumpError (List Node) :=
  match fs path with
  | none => .error (.notFound path)
  | some content =>
    match parseXml content with
    | none => .error .malformed
    | some root => .ok ((iterTag root "node").map Node.from_xml)

/-- `GetDumpResponse` of `src/tools.py`. -/
structure GetDumpResponse where
  status : Bool
  error : String
  hierarchy : List Node
deriving DecidableEq, Repr

/-- The `filtered` value of `getDump` after the retry step (`src/tools.py`
lines 196-202): when the full filter yields zero nodes and `view_class_name`
is non-null, refilter with a `NodesFilter` carrying only that field. -/
def retryFiltered (nodes : List Node) (f : NodesFilter) : List Node :=
  if (filter_nodes nodes f).length = 0 ∧ f.view_class_name ≠ none then
    filter_nodes nodes
      { view_class_name := f.view_class_name
        package_name := none
        resource_id := none
        content_description := none
        text := none
        hint := none }
  else filter_nodes nodes f

/-- The filter-and-fallback block of `getDump` (`src/tools.py` lines 196-215):
the retried filter result when nonempty, the complete node list otherwise. -/
def getDumpFiltered (nodes : List Node) (f : NodesFilter) : List Node :=
  if (retryFiltered nodes f).length = 0 then nodes else retryFiltered nodes f

/-- `getDump`: the dump text retrieval is passed in as `dumpResult` (the
external driver call, whose exception carries a message), the XML parser as
`parseXml`; a parse failure becomes a `status := false` response. -/
def getDump (parseXml : String → Option XElem) (dumpResult : Except String String)
    (filt : Option NodesFilter) : GetDumpResponse :=
  match dumpResult with
  | .error e => { status := false, error := e, hierarchy := [] }
  | .ok xml =>
    match parse_nodes_from_string parseXml xml with
    | .error _ => { status := false, error := "parse error", hierarchy := [] }
    | .ok nodes =>
      match filt with
      | none => { status := true, error := "", hierarchy := nodes }
      | some f => { status := true, error := "", hierarchy := getDumpFiltered nodes f }

/-- Spec-side reading of one optional filter field: an inactive (null or
empty) field holds for every node, an active field imposes its predicate. -/
def optHolds (o : Option String) (q : String → Bool) : Bool :=
  match o with
  | none => true
  | some v => if v = "" then true else q v

/-- Spec-side conjunction of the six per-field predicates of §4.2: substring
match for five fields, exact equality for `resource_id`. -/
def specMatches (f : NodesFilter) (n : Node) : Bool :=
  optHolds f.view_class_name (fun v => strContains v n.view_class_name) &&
  optHolds f.package_name (fun v => strContains v n.package) &&
  optHolds f.resource_id (fun v => n.resource_id == v) &&
  optHolds f.content_description (fun v => strContains v n.content_desc) &&
  optHolds f.text (fun v => strContains v n.text) &&
  optHolds f.hint (fun v => strContains v n.hint)

/-- A concrete parsed button node used to instantiate theorems. -/
def okButton : Node :=
  Node.from_xml (XElem.mk "node"
    [("text", "OK"), ("class", "android.widget.Button"),
     ("resource-id", "com.example:id/ok"), ("clickable", "true"),
     ("bounds", "[0,0][10,10]")] [])

/-- A concrete dump tree with nested `node` elements and a non-node wrapper. -/
def sampleTree : XElem :=
  XElem.mk "hierarchy" []
    [XElem.mk "node" [("text", "A"), ("class", "android.widget.Button")]
      [XElem.mk "node" [("text", "B")] []],
     XElem.mk "wrapper" [] [XElem.mk "node" [("text", "C")] []]]

/-- The node list parsed from `sampleTree`. -/
def sampleNodes : List Node :=
  (iterTag sampleTree "node").map Node.from_xml

/-- A filter whose class-name field matches `sampleTree` but whose text field
matches nothing. -/
def buttonFilter : NodesFilter :=
  ⟨some "Button", none, none, none, some "NoSuchText", none⟩

theorem predOf_all (o : Option String) (p : String → Node → Bool) (n : Node) :
    (predOf o p).all (fun q => q n) = optHolds o (fun v => p v n) := by
  cases o with
  | none => rfl
  | some v => by_cases h : v = "" <;> simp [predOf, optHolds, h]

theorem activePreds_all (f : NodesFilter) (n : Node) :
    (activePreds f).all (fun q => q n) = specMatches f n := by
  simp [activePreds, specMatches, List.all_append, predOf_all, Bool.and_assoc]

theorem filter_nodes_eq_filter (nodes : List Node) (f : NodesFilter)
    (h : activePreds f ≠ []) :
    filter_nodes nodes f = nodes.filter (fun n => (activePreds f).all (fun q => q n)) := by
  unfold filter_nodes
  cases hp : activePreds f with
  | nil => exact absurd hp h
  | cons p ps =>
    cases ps with
    | nil => simp only [List.all_cons, List.all_nil, Bool.and_true]
    | cons q rest => rfl

theorem filter_nodes_nil (f : NodesFilter) : filter_nodes [] f = [] := by
  unfold filter_nodes
  cases activePreds f with
  | nil => rfl
  | cons p ps => cases ps <;> rfl

theorem retryFiltered_nil (f : NodesFilter) : retryFiltered [] f = [] := by
  unfold retryFiltered
  split <;> exact filter_nodes_nil _

theorem getDumpFiltered_eq_nil_iff (nodes : List Node) (f : NodesFilter) :
    getDumpFiltered nodes f = [] ↔ nodes = [] := by
  unfold getDumpFiltered
  split
  next hc => exact Iff.rfl
  next hc =>
    constructor
    · intro h
      rw [h] at hc
      simp at hc
    · intro h
      subst h
      rw [retryFiltered_nil] at hc
      simp at hc

mutual

theorem iterTag_eq_filter (e : XElem) (t : String) :
    iterTag e t = (dfsElems e).filter (fun x => x.tag == t) := by
  match e with
  | .mk tg a c =>
    rw [iterTag, dfsElems, List.filter_cons, ← iterTagList_eq_filter c t]
    by_cases h : tg = t <;> simp [XElem.tag, h]

theorem iterTagList_eq_filter (l : List XElem) (t : String) :
    iterTagList l t = (dfsList l).filter (fun x => x.tag == t) := by
  match l with
  | [] => rw [iterTagList, dfsList]; rfl
  | x :: xs =>
    rw [iterTagList, dfsList, List.filter_append, iterTag_eq_filter x t,
        iterTagList_eq_filter xs t]

end

/-- C1: when the full filter yields zero nodes, `getDump` retries with only
the `view_class_name` field when that field is non-null and returns its
result when nonempty; when the retry is also empty, or `view_class_name` is
null, the complete unfiltered node list is returned. -/
theorem getDump_empty_filter_fallback (parseXml : String → Option XElem) (xml : String)
    (nodes : List Node) (f : NodesFilter)
    (hp : parse_nodes_from_string parseXml xml = .ok nodes)
    (h : filter_nodes nodes f = []) :
    (getDump parseXml (.ok xml) (some f)).hierarchy =
      match f.view_class_name with
      | some v =>
        if filter_nodes nodes ⟨some v, none, none, none, none, none⟩ = [] then nodes
        else filter_nodes nodes ⟨some v, none, none, none, none, none⟩
      | none => nodes := by
  have hg : (getDump parseXml (.ok xml) (some f)).hierarchy = getDumpFiltered nodes f := by
    simp [getDump, hp]
  rw [hg]
  unfold getDumpFiltered retryFiltered
  cases hv : f.view_class_name with
  | none => simp [h, hv]
  | some v => simp [h, hv, List.length_eq_zero]

/-- Witness for C1: against `sampleTree`, the filter by class `"Button"` and
text `"NoSuchText"` yields zero nodes, and `getDump` returns the retry by
class name alone. -/
theorem getDump_empty_filter_fallback_witness :
    filter_nodes sampleNodes buttonFilter = [] ∧
    (getDump (fun _ => some sampleTree) (.ok "dump") (some buttonFilter)).hierarchy =
      (match buttonFilter.view_class_name with
       | some v =>
         if filter_nodes sampleNodes ⟨some v, none, none, none, none, none⟩ = [] then
           sampleNodes
         else filter_nodes sampleNodes ⟨some v, none, none, none, none, none⟩
       | none => sampleNodes) :=
  ⟨by decide, getDump_empty_filter_fallback _ "dump" sampleNodes buttonFilter rfl (by decide)⟩

/-- C2: with two or more active fields, `filter_nodes` keeps exactly the nodes
satisfying every active predicate (substring for five fields, equality for
`resource_id`), as a stable subsequence of the input. -/
theorem filter_nodes_conjunction (nodes : List Node) (f : NodesFilter)
    (h : 2 ≤ (activePreds f).length) :
    filter_nodes nodes f = nodes.filter (fun n => specMatches f n) ∧
    (filter_nodes nodes f).Sublist nodes := by
  have hne : activePreds f ≠ [] := by
    intro he
    rw [he] at h
    simp at h
  have he : filter_nodes nodes f = nodes.filter (fun n => specMatches f n) := by
    rw [filter_nodes_eq_filter nodes f hne]
    exact List.filter_congr (fun n _ => activePreds_all f n)
  refine ⟨he, ?_⟩
  rw [he]
  exact List.filter_sublist nodes

/-- Witness for C2: the two-field `buttonFilter` on `sampleNodes`. -/
theorem filter_nodes_conjunction_witness :
    2 ≤ (activePreds buttonFilter).length ∧
    (filter_nodes sampleNodes buttonFilter =
       sampleNodes.filter (fun n => specMatches buttonFilter n) ∧
     (filter_nodes sampleNodes buttonFilter).Sublist sampleNodes) :=
  ⟨by decide, filter_nodes_conjunction sampleNodes buttonFilter (by decide)⟩

/-- Counterexample to C3: with `resource_id` set to the empty string and all
other fields null, `filter_nodes` returns a node whose `resource_id` is not
the empty string, instead of the claimed empty-string-only selection. -/
theorem filter_empty_string_counterexample :
    filter_nodes [okButton] ⟨none, none, some "", none, none, none⟩ = [okButton] ∧
    okButton.resource_id ≠ "" :=
  ⟨by decide, by decide⟩

/-- C3 amended: a field set to the empty string is inactive (contributes no
predicate and does not count toward the active-field total), so a filter whose
`resource_id` is the empty string and whose other fields are null returns the
input unchanged. -/
theorem filter_empty_string_inactive (nodes : List Node) :
    activePreds ⟨none, none, some "", none, none, none⟩ = [] ∧
    filter_nodes nodes ⟨none, none, some "", none, none, none⟩ = nodes :=
  ⟨rfl, rfl⟩

/-- Counterexample to C4: a valid bounds prefix followed by trailing garbage
parses to the prefix's coordinates, not to the claimed default. -/
theorem parse_bounds_trailing_garbage_counterexample :
    parse_bounds (some "[10,20][30,40]xyz") = ((10, 20), (30, 40)) ∧
    (((10, 20), (30, 40)) : (Int × Int) × (Int × Int)) ≠ ((0, 0), (0, 0)) :=
  ⟨by decide, by decide⟩

/-- C4 amended: a value whose trimmed string begins with the pattern
`[int,int][int,int]` yields those coordinate pairs, trailing characters
ignored; a value whose trimmed string does not begin with the pattern, and an
absent value, yields `((0,0),(0,0))`, never a partially populated bounds. -/
theorem parse_bounds_prefix_semantics :
    (∀ s : String, boundsPrefix (pyStripList s.toList) = none →
       parse_bounds (some s) = ((0, 0), (0, 0))) ∧
    parse_bounds (some "[10,20][30,40]") = ((10, 20), (30, 40)) ∧
    parse_bounds (some "[10,20][30,40]xyz") = ((10, 20), (30, 40)) ∧
    parse_bounds (some "garbage") = ((0, 0), (0, 0)) ∧
    parse_bounds none = ((0, 0), (0, 0)) := by
  refine ⟨?_, by decide, by decide, by decide, rfl⟩
  intro s h
  rw [show s.toList = s.data from rfl] at h
  by_cases hs : s = "" <;> simp [parse_bounds, hs, h]

/-- Witness for C4 amended: a non-matching value falls back to the default. -/
theorem parse_bounds_prefix_semantics_witness :
    parse_bounds (some "[oops") = ((0, 0), (0, 0)) :=
  parse_bounds_prefix_semantics.1 "[oops" (by decide)

/-- C5: parsing a well-formed dump produces one `Node` per element tagged
`node`, at any nesting depth, in depth-first document order, skipping
container elements with other tags. -/
theorem parse_depth_first_order (parseXml : String → Option XElem) (t : String)
    (root : XElem) (h : parseXml t = some root) :
    parse_nodes_from_string parseXml t =
      .ok (((dfsElems root).filter (fun x => x.tag == "node")).map Node.from_xml) := by
  simp [parse_nodes_from_string, h, iterTag_eq_filter]

/-- Witness for C5: the nested `sampleTree` with three `node` elements. -/
theorem parse_depth_first_order_witness :
    parse_nodes_from_string (fun _ => some sampleTree) "dump2" =
      .ok (((dfsElems sampleTree).filter (fun x => x.tag == "node")).map Node.from_xml) :=
  parse_depth_first_order _ "dump2" sampleTree rfl

/-- C6: `as_bool` is true exactly when the trimmed, lowercased value is
`"true"`, `"1"` or `"yes"`; every other value, including `"false"`, `"0"`,
the empty string and an absent attribute, is false. -/
theorem as_bool_coercion :
    (∀ v : String, as_bool (some v) = true ↔
      (asciiLower (pyStrip v) = "true" ∨ asciiLower (pyStrip v) = "1" ∨
       asciiLower (pyStrip v) = "yes")) ∧
    as_bool (some "true") = true ∧ as_bool (some "True") = true ∧
    as_bool (some "1") = true ∧ as_bool (some "yes") = true ∧
    as_bool (some "YES") = true ∧ as_bool (some "false") = false ∧
    as_bool (some "0") = false ∧ as_bool (some "") = false ∧
    as_bool none = false := by
  refine ⟨?_, by decide, by decide, by decide, by decide, by decide, by decide,
    by decide, by decide, rfl⟩
  intro v
  simp [as_bool, or_assoc]

/-- Witness for C6: a padded upper-case value coerces to true. -/
theorem as_bool_coercion_witness :
    as_bool (some " TRUE ") = true :=
  (as_bool_coercion.1 " TRUE ").mpr (by decide)

/-- C7: an element carrying no attributes parses to the all-defaults record,
an element whose numeric, boolean and bounds attributes are all malformed
parses to the same defaults rather than failing, and malformed integer text
always coerces to the default `0`. -/
theorem from_xml_defaults :
    (∀ s : String, pythonParseInt s = none → as_int (some s) = 0) ∧
    Node.from_xml (XElem.mk "node" [] []) =
      { index := 0, text := "", resource_id := "", view_class_name := "",
        package := "", content_desc := "", checkable := false, checked := false,
        clickable := false, enabled := false, focusable := false, focused := false,
        scrollable := false, long_clickable := false, password := false,
        selected := false, visible_to_user := false, bounds := ((0, 0), (0, 0)),
        drawing_order := 0, hint := "", display_id := 0 } ∧
    Node.from_xml (XElem.mk "node"
      [("index", "abc"), ("drawing-order", "9x"), ("display-id", " "),
       ("bounds", "oops"), ("checked", "maybe")] []) =
      { index := 0, text := "", resource_id := "", view_class_name := "",
        package := "", content_desc := "", checkable := false, checked := false,
        clickable := false, enabled := false, focusable := false, focused := false,
        scrollable := false, long_clickable := false, password := false,
        selected := false, visible_to_user := false, bounds := ((0, 0), (0, 0)),
        drawing_order := 0, hint := "", display_id := 0 } := by
  refine ⟨?_, by decide, by decide⟩
  intro s h
  simp [as_int, h]

/-- Witness for C7: malformed integer text coerces to 0. -/
theorem from_xml_defaults_witness :
    as_int (some "12monkeys") = 0 :=
  from_xml_defaults.1 "12monkeys" (by decide)

/-- C8: a missing path gives the `notFound` error before any parse attempt
(for every parser), malformed content gives the distinct `malformed` error
with no partial node list, and the two error kinds never coincide. -/
theorem parse_error_kinds (parseXml : String → Option XElem) (fs : String → Option String)
    (path content : String) :
    (fs path = none → parse_nodes_from_file parseXml fs path = .error (.notFound path)) ∧
    (fs path = some content → parseXml content = none →
       parse_nodes_from_file parseXml fs path = .error .malformed) ∧
    (parseXml content = none →
       parse_nodes_from_string parseXml content = .error .malformed) ∧
    (∀ p : String, DumpError.notFound p ≠ DumpError.malformed) := by
  refine ⟨?_, ?_, ?_, ?_⟩
  · intro h
    simp [parse_nodes_from_file, h]
  · intro h1 h2
    simp [parse_nodes_from_file, h1, h2]
  · intro h
    simp [parse_nodes_from_string, h]
  · intro p hne
    exact DumpError.noConfusion hne

/-- Witness for C8: a missing file, a present but malformed file, and
malformed in-memory text. -/
theorem parse_error_kinds_witness :
    parse_nodes_from_file (fun _ => none) (fun _ => none) "missing.xml" =
      .error (.notFound "missing.xml") ∧
    parse_nodes_from_file (fun _ => none) (fun _ => some "<bad") "f.xml" =
      .error .malformed ∧
    parse_nodes_from_string (fun _ => none) "<bad" = .error .malformed :=
  ⟨(parse_error_kinds (fun _ => none) (fun _ => none) "missing.xml" "").1 rfl,
   (parse_error_kinds (fun _ => none) (fun _ => some "<bad") "f.xml" "<bad").2.1 rfl rfl,
   (parse_error_kinds (fun _ => none) (fun _ => none) "x" "<bad").2.2.1 rfl⟩

/-- C9: an all-null filter returns the input node list unchanged. -/
theorem filter_identity (nodes : List Node) :
    filter_nodes nodes ⟨none, none, none, none, none, none⟩ = nodes :=
  rfl

/-- C10: a successful `getDump` with a non-null filter reports success, and its
hierarchy is empty exactly when the full parsed node list is empty. -/
theorem getDump_hierarchy_empty_iff (parseXml : String → Option XElem) (xml : String)
    (nodes : List Node) (f : NodesFilter)
    (hp : parse_nodes_from_string parseXml xml = .ok nodes) :
    (getDump parseXml (.ok xml) (some f)).status = true ∧
    ((getDump parseXml (.ok xml) (some f)).hierarchy = [] ↔ nodes = []) := by
  have hg : getDump parseXml (.ok xml) (some f) =
      { status := true, error := "", hierarchy := getDumpFiltered nodes f } := by
    simp [getDump, hp]
  rw [hg]
  exact ⟨rfl, getDumpFiltered_eq_nil_iff nodes f⟩

/-- Witness for C10: `sampleTree` with the narrow `buttonFilter`. -/
theorem getDump_hierarchy_empty_iff_witness :
    (getDump (fun _ => some sampleTree) (.ok "d3") (some buttonFilter)).status = true ∧
    ((getDump (fun _ => some sampleTree) (.ok "d3") (some buttonFilter)).hierarchy = [] ↔
      sampleNodes = []) :=
  getDump_hierarchy_empty_iff _ "d3" sampleNodes buttonFilter rfl

end ManualAutomator
